import Mathlib

/-
Verification of the t212-finanzblick-sync repository.

This file gives a shallow embedding of the parts of the codebase that the
checked properties talk about:

  * src/models/transaction.py        (Transaction, signed_amount, to_finanzblick_row)
  * src/exporters/finanzblick_exporter.py (column order, column synthesis)
  * src/trading212/transaction_factory.py (normalization, date parsing, assembly)
  * src/trading212/api_client.py     (paginated fetch loop)
  * t212-finanzblick-sync.py         (legacy fetch loop with cursor dialect)
  * src/app.py                       (run orchestration, credential checks)

Python floats are embedded as rationals, Python datetimes as a plain record of
numeric fields, dict-typed API records as structures of Option-valued fields
(None/absent = none), and exceptions as Except values that the embedded code
catches exactly where the source does.
-/

namespace T212

/-- Embedding of a zone-naive Python datetime: only the fields this codebase
reads (year, month, day, hour, minute, second). -/
structure DateTime where
  year : Nat
  month : Nat
  day : Nat
  hour : Nat
  minute : Nat
  second : Nat
deriving DecidableEq, Repr

/-- Embedding of the TransactionType enum of src/models/transaction.py. -/
inductive TransactionType where
  | buy
  | sell
  | dividend
  | deposit
  | withdrawal
  | interest
  | other
deriving DecidableEq, Repr

/-- Embedding of the Transaction dataclass of src/models/transaction.py.
Python float fields become rationals; Optional fields become Option. -/
structure Transaction where
  date : DateTime
  transaction_type : TransactionType
  amount : ℚ
  description : String
  recipient : String
  ticker : Option String := none
  quantity : Option ℚ := none
  price : Option ℚ := none
deriving DecidableEq, Repr

/-- Left-pad a decimal numeral with zeros to the given width, as Python's
strftime does for the %d, %m and %Y fields. -/
def padZero (width : Nat) (n : Nat) : String :=
  let s := toString n
  (List.replicate (width - s.length) ('0')).asString ++ s

/-- Transaction.formatted_date: strftime of the date in the German
DD.MM.YYYY shape. -/
def Transaction.formatted_date (t : Transaction) : String :=
  padZero 2 t.date.day ++ "." ++ padZero 2 t.date.month ++ "." ++ padZero 4 t.date.year

/-- Transaction.booking_text: the German booking text chosen by transaction
type.  The source builds a dict covering every enum member and reads it with
default "Sonstiges"; the total match below covers the same cases. -/
def Transaction.booking_text (t : Transaction) : String :=
  match t.transaction_type with
  | .buy => "Wertpapierkauf"
  | .sell => "Wertpapierverkauf"
  | .dividend => "Dividende"
  | .deposit => "Einlage"
  | .withdrawal => "Auszahlung / Kartennutzung"
  | .interest => "Zinsen"
  | .other => "Sonstiges"

/-- Transaction.signed_amount: -abs(amount) when the type is BUY or
WITHDRAWAL, abs(amount) otherwise. -/
def Transaction.signed_amount (t : Transaction) : ℚ :=
  if t.transaction_type = TransactionType.buy ∨ t.transaction_type = TransactionType.withdrawal
  then -|t.amount|
  else |t.amount|

/-- A cell of the Finanzblick row dict: the source stores strings in every
field except Betrag, which holds the raw float until the exporter formats it. -/
inductive CellValue where
  | str (s : String)
  | num (q : ℚ)
deriving DecidableEq, Repr

/-- Transaction.to_finanzblick_row, keys byte-for-byte as in
src/models/transaction.py.  In that file the recipient key is the
mojibake string "Empf√§nger" (U+221A U+00A7 in place of the
intended U+00E4), which this embedding reproduces exactly. -/
def Transaction.to_finanzblick_row (t : Transaction) : List (String × CellValue) :=
  [("Buchungsdatum", .str t.formatted_date),
   ("Wertstellungsdatum", .str t.formatted_date),
   ("Auswertungsdatum", .str t.formatted_date),
   ("Empf√§nger", .str t.recipient),
   ("Verwendungszweck", .str t.description),
   ("Buchungstext", .str t.booking_text),
   ("Betrag", .num t.signed_amount),
   ("IBAN", .str ""),
   ("BIC", .str "")]

namespace FinanzblickCSVExporter

/-- FinanzblickCSVExporter.COLUMNS, byte-for-byte as in
src/exporters/finanzblick_exporter.py (there the umlaut is the genuine
U+00E4). -/
def COLUMNS : List String :=
  ["Buchungsdatum",
   "Wertstellungsdatum",
   "Auswertungsdatum",
   "Empfänger",
   "Verwendungszweck",
   "Buchungstext",
   "Betrag",
   "IBAN",
   "BIC"]

/-- Lookup of a column in a row dict (pandas column access on the DataFrame
built from the row dicts). -/
def rowValue (row : List (String × CellValue)) (key : String) : Option CellValue :=
  (row.find? (fun kv => kv.1 = key)).map (fun kv => kv.2)

/-- The per-row effect of the exporter's column step: for every name in
COLUMNS in order, take the row's value under that name, and synthesize an
empty string when the DataFrame has no such column (the source's
if col not in df.columns: df[col] = "" followed by df = df[self.COLUMNS]).
Any row key outside COLUMNS is dropped by the same selection. -/
def exportedCells (t : Transaction) : List (String × CellValue) :=
  COLUMNS.map (fun c => (c, (rowValue t.to_finanzblick_row c).getD (.str "")))

end FinanzblickCSVExporter

/-- The Python exceptions this codebase can meet and catch. -/
inductive PyErr where
  | attributeError
  | valueError
  | typeError
deriving DecidableEq, Repr

/-- Numeric value of a decimal digit character. -/
def digitVal (c : Char) : Nat := c.toNat - 48

/-- Modelled from the Python standard library: datetime.fromisoformat on the
fragment this program can feed it after cleaning (no fractional seconds, no
offset).  Accepts exactly YYYY-MM-DD and YYYY-MM-DDTHH:MM:SS with decimal
digits in the numeric positions and in-range components, and rejects
everything else.  Real CPython also accepts some further shapes (space
separator, offsets) and checks day-of-month against the month length; no
property below depends on inputs where those refinements differ. -/
def fromisoformat (s : String) : Option DateTime :=
  match s.toList with
  | [y1, y2, y3, y4, '-', m1, m2, '-', d1, d2] =>
    mkDateTime y1 y2 y3 y4 m1 m2 d1 d2 ('0') ('0') ('0') ('0') ('0') ('0')
  | [y1, y2, y3, y4, '-', m1, m2, '-', d1, d2, 'T', h1, h2, ':', n1, n2, ':', s1, s2] =>
    mkDateTime y1 y2 y3 y4 m1 m2 d1 d2 h1 h2 n1 n2 s1 s2
  | _ => none
where
  mkDateTime (y1 y2 y3 y4 m1 m2 d1 d2 h1 h2 n1 n2 s1 s2 : Char) : Option DateTime :=
    if [y1, y2, y3, y4, m1, m2, d1, d2, h1, h2, n1, n2, s1, s2].all Char.isDigit then
      let y := 1000 * digitVal y1 + 100 * digitVal y2 + 10 * digitVal y3 + digitVal y4
      let mo := 10 * digitVal m1 + digitVal m2
      let d := 10 * digitVal d1 + digitVal d2
      let h := 10 * digitVal h1 + digitVal h2
      let mi := 10 * digitVal n1 + digitVal n2
      let sec := 10 * digitVal s1 + digitVal s2
      if 1 ≤ y ∧ 1 ≤ mo ∧ mo ≤ 12 ∧ 1 ≤ d ∧ d ≤ 31 ∧ h ≤ 23 ∧ mi ≤ 59 ∧ sec ≤ 59 then
        some ⟨y, mo, d, h, mi, sec⟩
      else none
    else none

namespace TransactionFactory

/-- The cleaning step of TransactionFactory._parse_date:
iso_date_str.split(".")[0] keeps the characters before the first dot, and
.replace("Z", "") then removes every Z character (not only a trailing one). -/
def cleanDateString (s : String) : String :=
  ((s.toList.takeWhile (fun c => c ≠ '.')).filter (fun c => c ≠ 'Z')).asString

/-- The try-block of TransactionFactory._parse_date.  A missing field arrives
as None, on which .split raises AttributeError; an unparseable cleaned string
makes datetime.fromisoformat raise ValueError. -/
def parse_date_try (iso_date_str : Option String) : Except PyErr DateTime :=
  match iso_date_str with
  | none => .error .attributeError
  | some s =>
    match fromisoformat (cleanDateString s) with
    | some dt => .ok dt
    | none => .error .valueError

/-- TransactionFactory._parse_date: the try-block above under the source's
catch-all except clause, which substitutes datetime.now().  The current
wall-clock time is passed in as the parameter now. -/
def parse_date (now : DateTime) (iso_date_str : Option String) : DateTime :=
  match parse_date_try iso_date_str with
  | .ok dt => dt
  | .error _ => now

end TransactionFactory

/-- A raw Trading 212 order record, fields as read by the factory.
Absent dict keys are none. -/
structure RawOrder where
  dateCreated : Option String := none
  ticker : Option String := none
  filledQuantity : Option ℚ := none
  fillPrice : Option ℚ := none
  direction : Option String := none
  status : Option String := none
deriving DecidableEq, Repr

/-- A raw Trading 212 dividend record, fields as read by the factory. -/
structure RawDividend where
  paidOn : Option String := none
  amount : Option ℚ := none
  ticker : Option String := none
deriving DecidableEq, Repr

/-- A raw Trading 212 cash-transaction record, fields as read by the factory. -/
structure RawCashTransaction where
  date : Option String := none
  amount : Option ℚ := none
  type : Option String := none
deriving DecidableEq, Repr

namespace TransactionFactory

/-- The f-string description built by TransactionFactory.from_order.  Python
renders the floats with str(); this embedding renders the rationals with
toString, which only affects the spelling of the description text, not which
fields it is built from. -/
def orderDescription (ticker : String) (quantity price : ℚ) : String :=
  "Order " ++ ticker ++ " " ++ toString quantity ++ " Stk @ " ++ toString price

/-- TransactionFactory.from_order.  Note the source stores
quantity * price itself as amount (no absolute value is taken). -/
def from_order (now : DateTime) (order : RawOrder) : Transaction :=
  let date := parse_date now order.dateCreated
  let ticker := match order.ticker with | some t => t | none => "Unknown"
  let quantity := order.filledQuantity.getD 0
  let price := order.fillPrice.getD 0
  let direction := order.direction
  let total_amount := quantity * price
  let transaction_type :=
    if direction = some ("BUY") then TransactionType.buy else TransactionType.sell
  { date := date
    transaction_type := transaction_type
    amount := total_amount
    description := orderDescription ticker quantity price
    recipient := "Trading 212 Markets"
    ticker := some ticker
    quantity := some quantity
    price := some price }

/-- TransactionFactory.from_dividend.  Note the source stores the raw amount
itself (no absolute value is taken). -/
def from_dividend (now : DateTime) (dividend : RawDividend) : Transaction :=
  let date := parse_date now dividend.paidOn
  let amount := dividend.amount.getD 0
  let ticker := match dividend.ticker with | some t => t | none => "DIV"
  { date := date
    transaction_type := TransactionType.dividend
    amount := amount
    description := "Dividende " ++ ticker
    recipient := "Trading 212 (Dividende)"
    ticker := some ticker }

/-- The type_mapping dict of TransactionFactory.from_transaction, read with
default (OTHER, "Transaktion"). -/
def typeMapping (type_str : Option String) : TransactionType × String :=
  match type_str with
  | some s =>
    if s = "DEPOSIT" then (TransactionType.deposit, "Einzahlung auf Verrechnungskonto")
    else if s = "WITHDRAWAL" then (TransactionType.withdrawal, "Abhebung oder Kartenzahlung")
    else if s = "INTEREST" then (TransactionType.interest, "Zinsen auf Guthaben")
    else (TransactionType.other, "Transaktion")
  | none => (TransactionType.other, "Transaktion")

/-- TransactionFactory.from_transaction.  Here the source does take
abs(amount). -/
def from_transaction (now : DateTime) (transaction : RawCashTransaction) : Transaction :=
  let date := parse_date now transaction.date
  let amount := transaction.amount.getD 0
  let tm := typeMapping transaction.type
  { date := date
    transaction_type := tm.1
    amount := |amount|
    description := tm.2
    recipient := "Trading 212 Cash" }

/-- TransactionFactory.create_all_transactions: one accumulator list, orders
appended first (only those whose status equals "FILLED"), then every
dividend, then every cash transaction, each loop in input order. -/
def create_all_transactions (now : DateTime) (orders : List RawOrder)
    (dividends : List RawDividend) (transactions : List RawCashTransaction) :
    List Transaction :=
  let all1 := orders.foldl
    (fun acc order =>
      if order.status = some ("FILLED") then acc ++ [from_order now order] else acc) []
  let all2 := dividends.foldl
    (fun acc dividend => acc ++ [from_dividend now dividend]) all1
  transactions.foldl
    (fun acc transaction => acc ++ [from_transaction now transaction]) all2

end TransactionFactory

/-- The part of a JSON page body that the fetch loops read: data.get("items",
[]) (absent = []), data.get("nextPagePath") and data.get("next") (absent =
none), together with the HTTP status code of the response that carried it. -/
structure ApiResponse (Item : Type) where
  statusCode : Nat
  items : List Item := []
  nextPagePath : Option String := none
  next : Option String := none
deriving DecidableEq, Repr

/-- Outcome of one requests.get call as seen inside the try-block: either a
response whose body parsed, or any transport-level exception (connection
errors, .json() failures, ...). -/
inductive NetResult (Item : Type) where
  | success (r : ApiResponse Item)
  | transportError
deriving DecidableEq, Repr

/-- Python truthiness of an optional string: None and the empty string are
falsy. -/
def truthy : Option String → Bool
  | none => false
  | some s => s ≠ ""

namespace Trading212APIClient

/-- The while-loop of Trading212APIClient._fetch_paginated over an abstract
network (a map from request path to outcome), with a fuel bound standing for
the number of loop iterations; none means the fuel ran out (the Python loop
would still be running).  Each iteration spends one request; any exception in
the try-block and any non-200 status break the loop, returning the items
accumulated so far together with the request count.  Only
data.get("nextPagePath") is consulted for the continuation; the next field is
never read. -/
def fetch_paginated_aux (net : String → NetResult Item) (fuel : Nat) (npp : Option String)
    (acc : List Item) (reqs : Nat) : Option (List Item × Nat) :=
  match npp with
  | none => some (acc, reqs)
  | some p =>
    if p = "" then some (acc, reqs)
    else
      match fuel with
      | 0 => none
      | fuel' + 1 =>
        match net p with
        | .transportError => some (acc, reqs + 1)
        | .success r =>
          if r.statusCode ≠ 200 then some (acc, reqs + 1)
          else fetch_paginated_aux net fuel' r.nextPagePath (acc ++ r.items) (reqs + 1)

/-- Trading212APIClient._fetch_paginated: the loop above started at
endpoint?limit=50 (DEFAULT_PAGE_SIZE is 50) with empty accumulator. -/
def fetch_paginated (net : String → NetResult Item) (fuel : Nat) (endpoint : String) :
    Option (List Item × Nat) :=
  fetch_paginated_aux net fuel (some (endpoint ++ "?limit=50")) [] 0

/-- A finite all-good chain of pages under the path-override dialect: each
listed path answers 200 with its items and hands the next full path over in
nextPagePath, and the last page carries a falsy continuation (absent or
empty). -/
inductive PathChain (net : String → NetResult Item) : String → List (List Item) → Prop
  | last (p : String) (r : ApiResponse Item) :
      p ≠ "" → net p = .success r → r.statusCode = 200 →
      truthy r.nextPagePath = false →
      PathChain net p [r.items]
  | step (p q : String) (r : ApiResponse Item) (rest : List (List Item)) :
      p ≠ "" → net p = .success r → r.statusCode = 200 →
      r.nextPagePath = some q → q ≠ "" →
      PathChain net q rest →
      PathChain net p (r.items :: rest)

/-- A finite chain of good pages that ends in a failure: every listed page
answers 200 and points onward, and the path after the last listed page
answers with a transport-level error or a non-200 status. -/
inductive PathChainFail (net : String → NetResult Item) : String → List (List Item) → Prop
  | failTransport (p : String) :
      p ≠ "" → net p = .transportError →
      PathChainFail net p []
  | failStatus (p : String) (r : ApiResponse Item) :
      p ≠ "" → net p = .success r → r.statusCode ≠ 200 →
      PathChainFail net p []
  | step (p q : String) (r : ApiResponse Item) (rest : List (List Item)) :
      p ≠ "" → net p = .success r → r.statusCode = 200 →
      r.nextPagePath = some q → q ≠ "" →
      PathChainFail net q rest →
      PathChainFail net p (r.items :: rest)

end Trading212APIClient

namespace LegacyScript

/-- The while True loop of fetch_all_items in t212-finanzblick-sync.py, over
an abstract network keyed by the optional cursor query parameter (the
endpoint is fixed, limit is always 50); fuel bounds the iterations, none
meaning the Python loop would still be running.  The cursor is sent only when
truthy; the continuation is nextPagePath when truthy, else the next token;
a falsy continuation breaks the loop, as do exceptions and non-200 statuses
(returning the partial accumulator). -/
def fetch_all_items_aux (net : Option String → NetResult Item) (fuel : Nat)
    (cursor : Option String) (acc : List Item) : Option (List Item) :=
  match fuel with
  | 0 => none
  | fuel + 1 =>
    let sent := match cursor with
      | some c => if c = "" then none else some c
      | none => none
    match net sent with
    | .transportError => some acc
    | .success r =>
      if r.statusCode ≠ 200 then some acc
      else
        let acc1 := acc ++ r.items
        let cursor1 := if truthy r.nextPagePath then r.nextPagePath else r.next
        if truthy cursor1 then fetch_all_items_aux net fuel cursor1 acc1
        else some acc1

/-- fetch_all_items: the loop above started with no cursor and empty
accumulator. -/
def fetch_all_items (net : Option String → NetResult Item) (fuel : Nat) :
    Option (List Item) :=
  fetch_all_items_aux net fuel none []

/-- A finite all-good chain of pages under the cursor-token dialect: the
first page answers the cursorless request, every page answers 200 with a
falsy nextPagePath, continuation travels in the next token, and the last
page's next is falsy too. -/
inductive CursorChain (net : Option String → NetResult Item) :
    Option String → List (List Item) → Prop
  | last (c : Option String) (r : ApiResponse Item) :
      net c = .success r → r.statusCode = 200 →
      truthy r.nextPagePath = false → truthy r.next = false →
      CursorChain net c [r.items]
  | step (c : Option String) (tok : String) (r : ApiResponse Item) (rest : List (List Item)) :
      net c = .success r → r.statusCode = 200 →
      truthy r.nextPagePath = false → r.next = some tok → tok ≠ "" →
      CursorChain net (some tok) rest →
      CursorChain net c (r.items :: rest)

end LegacyScript

namespace Trading212APIClient

/-- The Trading212APIClient object state built by __init__: both credential
strings are bound to the two required positional parameters api_key and
api_secret; the Authorization header is the Basic scheme over the base64 of
credentials_string (the base64 rendering itself is not needed by any
property below). -/
structure Client where
  api_key : String
  api_secret : String
deriving DecidableEq, Repr

/-- credentials_string as built in __init__. -/
def Client.credentials_string (c : Client) : String :=
  c.api_key ++ ":" ++ c.api_secret

/-- Calling the Trading212APIClient constructor with a list of positional
arguments, under Python call semantics: __init__ declares exactly two
required parameters (api_key, api_secret), so any other arity raises
TypeError before the body runs. -/
def initCall (args : List String) : Except PyErr Client :=
  match args with
  | [k, s] => .ok ⟨k, s⟩
  | _ => .error .typeError

end Trading212APIClient

namespace Trading212SyncApp

/-- How far Trading212SyncApp.run gets.  exited n is a normal return of exit
code n; fetchPhase c means control reached the client fetch calls (the first
network activity) holding the constructed client; uncaught e is an exception
escaping run. -/
inductive RunOutcome where
  | exited (code : Nat)
  | fetchPhase (c : Trading212APIClient.Client)
  | uncaught (e : PyErr)
deriving DecidableEq, Repr

/-- Trading212SyncApp.run up to the start of the fetch phase.
load_secrets_ok is the Boolean outcome of self._load_secrets();
env_api_key is os.getenv("T212_API_KEY") (none when unset).  The source
checks only that single environment variable, then constructs the client as
Trading212APIClient(self.api_key) - one positional argument - and, were that
to succeed, would continue into client.fetch_orders() and the rest of the
pipeline.  run never reads any secret besides the key: no second credential
appears in src/app.py. -/
def run (load_secrets_ok : Bool) (env_api_key : Option String) : RunOutcome :=
  if load_secrets_ok = false then .exited 1
  else
    match env_api_key with
    | none => .exited 1
    | some key =>
      if key = "" then .exited 1
      else
        match Trading212APIClient.initCall [key] with
        | .error e => .uncaught e
        | .ok client => .fetchPhase client

end Trading212SyncApp

/-! Concrete sample inputs used by the closed theorems below. -/

/-- A fixed stand-in for the current wall-clock time. -/
def epoch : DateTime := ⟨1970, 1, 1, 0, 0, 0⟩

/-- A concrete buy transaction as the factory would build it. -/
def sampleBuy : Transaction :=
  { date := ⟨2024, 3, 15, 0, 0, 0⟩
    transaction_type := TransactionType.buy
    amount := 10
    description := "Order AAPL 1 Stk @ 10"
    recipient := "Trading 212 Markets" }

/-- A concrete dividend transaction. -/
def sampleDividend : Transaction :=
  { date := ⟨2024, 3, 16, 0, 0, 0⟩
    transaction_type := TransactionType.dividend
    amount := 5/2
    description := "Dividende AAPL"
    recipient := "Trading 212 (Dividende)" }

/-- A FILLED order with a negative filled quantity. -/
def c3Order : RawOrder :=
  { filledQuantity := some (-1), fillPrice := some (2),
    direction := some ("BUY"), status := some ("FILLED") }

/-- A dividend record with a negative raw amount. -/
def c3Dividend : RawDividend := { amount := some (-5) }

/-- A FILLED order with non-negative quantity and price. -/
def c3wOrder : RawOrder :=
  { filledQuantity := some (2), fillPrice := some (3),
    direction := some ("BUY"), status := some ("FILLED") }

/-- A dividend record with a non-negative raw amount. -/
def c3wDividend : RawDividend := { amount := some (7) }

/-- A withdrawal cash record with a negative raw amount. -/
def c3wCash : RawCashTransaction := { amount := some (-4), type := some ("WITHDRAWAL") }

/-- Remove one trailing Z character, if present. -/
def stripTrailingZ (s : String) : String :=
  match s.toList.reverse with
  | 'Z' :: rest => rest.reverse.asString
  | _ => s

/-- The date policy exactly as the specification words it: strip a trailing
Z and any fractional-second suffix beginning at the first dot, parse the
remainder as a zone-naive ISO-8601 timestamp, and on any failure substitute
the current time.  Stated only for comparison against parse_date. -/
def specDatePolicy (now : DateTime) (iso_date_str : Option String) : DateTime :=
  match iso_date_str with
  | none => now
  | some s =>
    match fromisoformat ((stripTrailingZ s).toList.takeWhile (fun c => c ≠ '.')).asString with
    | some dt => dt
    | none => now

/-- The amended date policy: truncate at the first dot, remove every Z
character from the kept part, parse the remainder as a zone-naive ISO-8601
timestamp, and on any failure substitute the current time. -/
def amendedDatePolicy (now : DateTime) (iso_date_str : Option String) : DateTime :=
  match iso_date_str with
  | none => now
  | some s =>
    match fromisoformat
        (((s.toList.takeWhile (fun c => c ≠ '.')).filter (fun c => c ≠ 'Z')).asString) with
    | some dt => dt
    | none => now

/-- A fixed stand-in wall-clock time distinct from the dates parsed below. -/
def c8Now : DateTime := ⟨1999, 12, 31, 23, 59, 59⟩

/-- A date string with a leading (non-trailing) Z character. -/
def c8Input : String := "Z2024-01-01T00:00:00"

/-- Drop the next field of a response, leaving everything else intact. -/
def forgetNext (resp : NetResult Item) : NetResult Item :=
  match resp with
  | .success r => .success { r with next := none }
  | .transportError => .transportError

/-- A two-page path-override network: the first request hands over the full
path of the second page in nextPagePath; the second page ends the chain. -/
def c10Net : String → NetResult Nat := fun p =>
  if p = "/api/v0/history/dividends?limit=50" then
    .success { statusCode := 200, items := [1, 2],
               nextPagePath := some ("/api/v0/history/dividends?cursor=A&limit=50") }
  else if p = "/api/v0/history/dividends?cursor=A&limit=50" then
    .success { statusCode := 200, items := [3] }
  else .transportError

/-- A network with one good page whose continuation answers HTTP 500. -/
def c9Net : String → NetResult Nat := fun p =>
  if p = "/api/v0/equity/history/orders?limit=50" then
    .success { statusCode := 200, items := [7],
               nextPagePath := some ("/api/v0/equity/history/orders?cursor=B&limit=50") }
  else if p = "/api/v0/equity/history/orders?cursor=B&limit=50" then
    .success { statusCode := 500, items := [9] }
  else .transportError

/-- A cursor-dialect server, keyed by the cursor parameter: the cursorless
first page carries the token of the second page in next (nextPagePath is
absent), and the second page ends the chain. -/
def c6NetQ : Option String → NetResult Nat := fun c =>
  match c with
  | none => .success { statusCode := 200, items := [1], next := some ("tok2") }
  | some t =>
    if t = "tok2" then .success { statusCode := 200, items := [2] }
    else .transportError

/-- The same cursor-dialect server as seen by _fetch_paginated, keyed by the
request path: only the initial endpoint?limit=50 request reaches a page,
and that page's continuation travels in next, which _fetch_paginated never
reads. -/
def c6NetP : String → NetResult Nat := fun p =>
  if p = "/api/v0/history/transactions?limit=50" then
    .success { statusCode := 200, items := [1], next := some ("tok2") }
  else .transportError

/-- A two-page path-override network for the amended C6 witness. -/
def c6wNetP : String → NetResult Nat := fun p =>
  if p = "/api/v0/equity/history/orders?limit=50" then
    .success { statusCode := 200, items := [4],
               nextPagePath := some ("/api/v0/equity/history/orders?cursor=C&limit=50") }
  else if p = "/api/v0/equity/history/orders?cursor=C&limit=50" then
    .success { statusCode := 200, items := [5] }
  else .transportError

/-- A two-page cursor-dialect server for the amended C6 witness. -/
def c6wNetQ : Option String → NetResult Nat := fun c =>
  match c with
  | none => .success { statusCode := 200, items := [4], next := some ("tokC") }
  | some t =>
    if t = "tokC" then .success { statusCode := 200, items := [5] }
    else .transportError

/-- C1 (code bug): the exported row of a transaction with a non-empty
recipient.  The column step emits the exact COLUMNS order and keeps
Verwendungszweck, IBAN and BIC as claimed, but the Empfänger cell is the
synthesized empty string, not the recipient: to_finanzblick_row keys the
recipient under the mojibake header (U+221A U+00A7), which the exporter's
COLUMNS selection drops while synthesizing an empty column under the real
umlaut header. -/
theorem C1_exported_empfaenger_empty :
    (FinanzblickCSVExporter.exportedCells sampleBuy).map Prod.fst
        = FinanzblickCSVExporter.COLUMNS ∧
    FinanzblickCSVExporter.rowValue (FinanzblickCSVExporter.exportedCells sampleBuy)
        "Empfänger" = some (.str "") ∧
    sampleBuy.recipient = "Trading 212 Markets" ∧
    FinanzblickCSVExporter.rowValue (FinanzblickCSVExporter.exportedCells sampleBuy)
        "Verwendungszweck" = some (.str sampleBuy.description) ∧
    FinanzblickCSVExporter.rowValue (FinanzblickCSVExporter.exportedCells sampleBuy)
        "IBAN" = some (.str "") ∧
    FinanzblickCSVExporter.rowValue (FinanzblickCSVExporter.exportedCells sampleBuy)
        "BIC" = some (.str "") := by
  refine ⟨rfl, rfl, rfl, rfl, rfl, rfl⟩

/-- C2 (code bug): with secrets loaded and the API key present, run raises
TypeError at the client construction (Trading212SyncApp.run passes a single
positional argument to the two-parameter Trading212APIClient constructor)
instead of reaching the fetch phase; with the key absent it does return exit
code 1 before any network call, as does a failed secret load. -/
theorem C2_run_type_error :
    Trading212SyncApp.run true (some ("live-api-key")) = .uncaught PyErr.typeError ∧
    (∀ c, Trading212SyncApp.run true (some ("live-api-key"))
        ≠ Trading212SyncApp.RunOutcome.fetchPhase c) ∧
    Trading212SyncApp.run true none = .exited 1 ∧
    Trading212SyncApp.run false (some ("live-api-key")) = .exited 1 := by
  refine ⟨rfl, fun c h => by simp [Trading212SyncApp.run, Trading212APIClient.initCall] at h,
    rfl, rfl⟩

/-- C3 is FALSE as stated: from_order stores filledQuantity * fillPrice and
from_dividend stores the raw amount, neither through an absolute value, so a
negative raw input yields a negative stored amount. -/
theorem C3_counterexample :
    (TransactionFactory.from_order epoch c3Order).amount = -2 ∧
    ¬((TransactionFactory.from_order epoch c3Order).amount = |(-1 : ℚ) * 2|) ∧
    (TransactionFactory.from_dividend epoch c3Dividend).amount = -5 ∧
    ¬((TransactionFactory.from_dividend epoch c3Dividend).amount = |(-5 : ℚ)|) := by
  refine ⟨?_, ?_, ?_, ?_⟩
  · show ((-1 : ℚ)) * 2 = -2
    norm_num
  · show ¬(((-1 : ℚ)) * 2 = |(-1 : ℚ) * 2|)
    norm_num
  · show ((-5 : ℚ)) = -5
    norm_num
  · show ¬((-5 : ℚ) = |(-5 : ℚ)|)
    norm_num

/-- C3 (amended): the stored amount is filledQuantity * fillPrice for orders
and the raw amount for dividends, with no absolute value taken, while cash
transactions do store the absolute value; consequently the stored amount
equals the claimed absolute value whenever the raw numeric fields are
non-negative. -/
theorem C3_amended_amounts (now : DateTime) (o : RawOrder) (d : RawDividend)
    (c : RawCashTransaction) :
    (TransactionFactory.from_order now o).amount
        = o.filledQuantity.getD 0 * o.fillPrice.getD 0 ∧
    (TransactionFactory.from_dividend now d).amount = d.amount.getD 0 ∧
    (TransactionFactory.from_transaction now c).amount = |c.amount.getD 0| ∧
    (0 ≤ o.filledQuantity.getD 0 → 0 ≤ o.fillPrice.getD 0 →
      (TransactionFactory.from_order now o).amount
        = |o.filledQuantity.getD 0 * o.fillPrice.getD 0|) ∧
    (0 ≤ d.amount.getD 0 →
      (TransactionFactory.from_dividend now d).amount = |d.amount.getD 0|) := by
  refine ⟨rfl, rfl, rfl,
    fun hq hp => (abs_of_nonneg (mul_nonneg hq hp)).symm,
    fun ha => (abs_of_nonneg ha).symm⟩

/-- Witness for the amended C3 at concrete records. -/
theorem C3_amended_witness :
    (TransactionFactory.from_order epoch c3wOrder).amount
        = |c3wOrder.filledQuantity.getD 0 * c3wOrder.fillPrice.getD 0| ∧
    (TransactionFactory.from_dividend epoch c3wDividend).amount
        = |c3wDividend.amount.getD 0| ∧
    (TransactionFactory.from_transaction epoch c3wCash).amount
        = |c3wCash.amount.getD 0| := by
  obtain ⟨h1, h2, h3, h4, h5⟩ := C3_amended_amounts epoch c3wOrder c3wDividend c3wCash
  exact ⟨h4 (show (0 : ℚ) ≤ 2 by norm_num) (show (0 : ℚ) ≤ 3 by norm_num),
    h5 (show (0 : ℚ) ≤ 7 by norm_num), h3⟩

/-- C8 is FALSE as stated: on a string with a leading Z the code removes
every Z (str.replace replaces all occurrences) and parses successfully,
where the claimed policy - strip only a trailing Z - leaves the string
unparseable and must substitute the current time; the two results differ. -/
theorem C8_counterexample :
    TransactionFactory.parse_date c8Now (some c8Input) = ⟨2024, 1, 1, 0, 0, 0⟩ ∧
    specDatePolicy c8Now (some c8Input) = c8Now ∧
    ¬(TransactionFactory.parse_date c8Now (some c8Input)
        = specDatePolicy c8Now (some c8Input)) := by
  refine ⟨by decide, by decide, by decide⟩

/-- C8 (amended): _parse_date never lets an exception escape: it equals the
amended total policy (truncate at the first dot, remove every Z character,
parse the remainder as a zone-naive ISO-8601 timestamp, fall back to the
current time), every failure of its try-block yields the current time, and
an absent field is such a failure (AttributeError), so the resulting date is
never absent. -/
theorem C8_amended_parse_date (now : DateTime) (iso : Option String) :
    TransactionFactory.parse_date now iso = amendedDatePolicy now iso ∧
    (∀ e, TransactionFactory.parse_date_try iso = Except.error e →
        TransactionFactory.parse_date now iso = now) ∧
    TransactionFactory.parse_date_try none = Except.error PyErr.attributeError := by
  refine ⟨?_, ?_, rfl⟩
  · cases iso with
    | none => rfl
    | some s =>
      simp only [TransactionFactory.parse_date, TransactionFactory.parse_date_try,
        TransactionFactory.cleanDateString, amendedDatePolicy]
      cases h : fromisoformat
          (((s.toList.takeWhile (fun c => c ≠ '.')).filter (fun c => c ≠ 'Z')).asString) with
      | none => simp [h]
      | some dt => simp [h]
  · intro e he
    simp only [TransactionFactory.parse_date, he]

/-- Witness for the amended C8: the absent-field case at a concrete time. -/
theorem C8_amended_witness : TransactionFactory.parse_date epoch none = epoch :=
  (C8_amended_parse_date epoch none).2.1 PyErr.attributeError rfl

/-- Orders loop of create_all_transactions in closed form. -/
theorem orders_loop_eq (now : DateTime) :
    ∀ (orders : List RawOrder) (acc : List Transaction),
      orders.foldl
        (fun acc order =>
          if order.status = some ("FILLED") then acc ++ [TransactionFactory.from_order now order]
          else acc) acc
      = acc ++ (orders.filter (fun o => decide (o.status = some ("FILLED")))).map
          (TransactionFactory.from_order now)
  | [], acc => by simp
  | o :: orders, acc => by
    by_cases h : o.status = some ("FILLED")
    · simp [List.foldl, h, orders_loop_eq now orders]
    · simp [List.foldl, h, orders_loop_eq now orders]

/-- Dividends loop of create_all_transactions in closed form. -/
theorem dividends_loop_eq (now : DateTime) :
    ∀ (dividends : List RawDividend) (acc : List Transaction),
      dividends.foldl (fun acc dividend => acc ++ [TransactionFactory.from_dividend now dividend]) acc
      = acc ++ dividends.map (TransactionFactory.from_dividend now)
  | [], acc => by simp
  | d :: dividends, acc => by simp [List.foldl, dividends_loop_eq now dividends]

/-- Cash-transactions loop of create_all_transactions in closed form. -/
theorem transactions_loop_eq (now : DateTime) :
    ∀ (transactions : List RawCashTransaction) (acc : List Transaction),
      transactions.foldl
        (fun acc transaction => acc ++ [TransactionFactory.from_transaction now transaction]) acc
      = acc ++ transactions.map (TransactionFactory.from_transaction now)
  | [], acc => by simp
  | c :: transactions, acc => by simp [List.foldl, transactions_loop_eq now transactions]

/-- C7: the assembled list is exactly the FILLED orders normalized, then all
dividends, then all cash transactions, each group in input order. -/
theorem C7_assembly_order (now : DateTime) (orders : List RawOrder)
    (dividends : List RawDividend) (transactions : List RawCashTransaction) :
    TransactionFactory.create_all_transactions now orders dividends transactions
      = ((orders.filter (fun o => decide (o.status = some ("FILLED")))).map
          (TransactionFactory.from_order now))
        ++ dividends.map (TransactionFactory.from_dividend now)
        ++ transactions.map (TransactionFactory.from_transaction now) := by
  unfold TransactionFactory.create_all_transactions
  simp only [orders_loop_eq, dividends_loop_eq, transactions_loop_eq,
    List.nil_append, List.append_assoc]

/-- Running the _fetch_paginated loop on an all-good path chain consumes one
fuel unit and one request per page and accumulates every page's items in
order; the final falsy continuation ends the loop without a request. -/
theorem fetch_paginated_aux_chain {Item : Type} (net : String → NetResult Item) :
    ∀ {p : String} {pages : List (List Item)}, Trading212APIClient.PathChain net p pages →
      ∀ (fuel : Nat), pages.length ≤ fuel → ∀ (acc : List Item) (reqs : Nat),
        Trading212APIClient.fetch_paginated_aux net fuel (some p) acc reqs
          = some (acc ++ pages.flatten, reqs + pages.length) := by
  intro p pages h
  induction h with
  | last p r hp hnet hstatus hfalsy =>
    intro fuel hfuel acc reqs
    obtain ⟨fuel', rfl⟩ : ∃ f, fuel = f + 1 := by
      cases fuel with
      | zero => simp at hfuel
      | succ n => exact ⟨n, rfl⟩
    have hend : Trading212APIClient.fetch_paginated_aux net fuel' r.nextPagePath
        (acc ++ r.items) (reqs + 1) = some (acc ++ r.items, reqs + 1) := by
      cases hnp : r.nextPagePath with
      | none => rw [Trading212APIClient.fetch_paginated_aux.eq_def]
      | some t =>
        have ht : t = "" := by
          rw [hnp] at hfalsy
          simpa [truthy] using hfalsy
        subst ht
        rw [Trading212APIClient.fetch_paginated_aux.eq_def]
        simp
    rw [Trading212APIClient.fetch_paginated_aux.eq_def]
    simp only [if_neg hp, hnet, hstatus]
    simp [hend]
  | step p q r rest hp hnet hstatus hnpp hq hrest ih =>
    intro fuel hfuel acc reqs
    obtain ⟨fuel', rfl⟩ : ∃ f, fuel = f + 1 := by
      cases fuel with
      | zero => simp at hfuel
      | succ n => exact ⟨n, rfl⟩
    have hlen : rest.length ≤ fuel' := by
      simp only [List.length_cons] at hfuel
      omega
    have hrec := ih fuel' hlen (acc ++ r.items) (reqs + 1)
    rw [Trading212APIClient.fetch_paginated_aux.eq_def]
    simp only [if_neg hp, hnet, hstatus, hnpp, hrec]
    rw [if_neg (show ¬((200 : Nat) ≠ 200) by omega)]
    simp only [Option.some.injEq, Prod.mk.injEq, List.flatten_cons, List.length_cons,
      List.append_assoc]
    refine ⟨by simp [List.append_assoc], by omega⟩

/-- Running the _fetch_paginated loop on a chain of good pages that ends in a
failure returns (normally) the items of the good pages, after one request
per good page plus the failing request. -/
theorem fetch_paginated_aux_chain_fail {Item : Type} (net : String → NetResult Item) :
    ∀ {p : String} {pages : List (List Item)},
      Trading212APIClient.PathChainFail net p pages →
      ∀ (fuel : Nat), pages.length + 1 ≤ fuel → ∀ (acc : List Item) (reqs : Nat),
        Trading212APIClient.fetch_paginated_aux net fuel (some p) acc reqs
          = some (acc ++ pages.flatten, reqs + pages.length + 1) := by
  intro p pages h
  induction h with
  | failTransport p hp hnet =>
    intro fuel hfuel acc reqs
    obtain ⟨fuel', rfl⟩ : ∃ f, fuel = f + 1 := by
      cases fuel with
      | zero => simp at hfuel
      | succ n => exact ⟨n, rfl⟩
    rw [Trading212APIClient.fetch_paginated_aux.eq_def]
    simp [if_neg hp, hnet]
  | failStatus p r hp hnet hstatus =>
    intro fuel hfuel acc reqs
    obtain ⟨fuel', rfl⟩ : ∃ f, fuel = f + 1 := by
      cases fuel with
      | zero => simp at hfuel
      | succ n => exact ⟨n, rfl⟩
    rw [Trading212APIClient.fetch_paginated_aux.eq_def]
    simp [if_neg hp, hnet, hstatus]
  | step p q r rest hp hnet hstatus hnpp hq hrest ih =>
    intro fuel hfuel acc reqs
    obtain ⟨fuel', rfl⟩ : ∃ f, fuel = f + 1 := by
      cases fuel with
      | zero => simp at hfuel
      | succ n => exact ⟨n, rfl⟩
    have hlen : rest.length + 1 ≤ fuel' := by
      simp only [List.length_cons] at hfuel
      omega
    have hrec := ih fuel' hlen (acc ++ r.items) (reqs + 1)
    rw [Trading212APIClient.fetch_paginated_aux.eq_def]
    simp only [if_neg hp, hnet, hstatus, hnpp, hrec]
    rw [if_neg (show ¬((200 : Nat) ≠ 200) by omega)]
    simp only [Option.some.injEq, Prod.mk.injEq, List.flatten_cons, List.length_cons,
      List.append_assoc]
    refine ⟨by simp [List.append_assoc], by omega⟩

/-- _fetch_paginated never reads the next field: a network that differs only
by blanking every response's next field drives the loop to the same result. -/
theorem fetch_paginated_aux_ignores_next {Item : Type} (net net' : String → NetResult Item)
    (hnn : ∀ p, net' p = forgetNext (net p)) :
    ∀ (fuel : Nat) (npp : Option String) (acc : List Item) (reqs : Nat),
      Trading212APIClient.fetch_paginated_aux net' fuel npp acc reqs
        = Trading212APIClient.fetch_paginated_aux net fuel npp acc reqs
  | fuel, none, acc, reqs => by
    rw [Trading212APIClient.fetch_paginated_aux.eq_def, Trading212APIClient.fetch_paginated_aux.eq_def]
  | fuel, some p, acc, reqs => by
    rw [Trading212APIClient.fetch_paginated_aux.eq_def, Trading212APIClient.fetch_paginated_aux.eq_def]
    by_cases hp : p = ""
    · simp [hp]
    · simp only [if_neg hp]
      cases fuel with
      | zero => rfl
      | succ f =>
        rw [hnn p]
        cases hnp : net p with
        | transportError => simp [forgetNext]
        | success r =>
          simp only [forgetNext]
          by_cases hs : r.statusCode = 200
          · simp only [hs]
            simp [fetch_paginated_aux_ignores_next net net' hnn f]
          · simp [hs]

/-- Running the legacy fetch_all_items loop on an all-good cursor chain
consumes one fuel unit per page and accumulates every page's items in order.
The cursor hypothesis says the current cursor is either the initial None or
a non-empty token, so that the sent parameter equals it. -/
theorem fetch_all_items_aux_chain {Item : Type} (net : Option String → NetResult Item) :
    ∀ {c : Option String} {pages : List (List Item)},
      LegacyScript.CursorChain net c pages →
      c = none ∨ truthy c = true →
      ∀ (fuel : Nat), pages.length ≤ fuel → ∀ (acc : List Item),
        LegacyScript.fetch_all_items_aux net fuel c acc = some (acc ++ pages.flatten) := by
  intro c pages h
  induction h with
  | last c r hnet hstatus hnpp hnext =>
    intro hc fuel hfuel acc
    obtain ⟨fuel', rfl⟩ : ∃ f, fuel = f + 1 := by
      cases fuel with
      | zero => simp at hfuel
      | succ n => exact ⟨n, rfl⟩
    rw [LegacyScript.fetch_all_items_aux.eq_def]
    rcases hc with hc | hc
    · subst hc
      simp [hnet, hstatus, hnpp, hnext]
    · cases c with
      | none => simp [hnet, hstatus, hnpp, hnext]
      | some t =>
        have ht : t ≠ "" := by simpa [truthy] using hc
        simp [if_neg ht, hnet, hstatus, hnpp, hnext]
  | step c tok r rest hnet hstatus hnpp hnext htok hrest ih =>
    intro hc fuel hfuel acc
    obtain ⟨fuel', rfl⟩ : ∃ f, fuel = f + 1 := by
      cases fuel with
      | zero => simp at hfuel
      | succ n => exact ⟨n, rfl⟩
    have hlen : rest.length ≤ fuel' := by
      simp only [List.length_cons] at hfuel
      omega
    have hrec := ih (Or.inr (by simpa [truthy] using htok)) fuel' hlen (acc ++ r.items)
    have htok' : truthy (some tok) = true := by simpa [truthy] using htok
    rw [LegacyScript.fetch_all_items_aux.eq_def]
    rcases hc with hc | hc
    · subst hc
      simp [hnet, hstatus, hnpp, hnext, htok', hrec, List.append_assoc]
    · cases c with
      | none => simp [hnet, hstatus, hnpp, hnext, htok', hrec, List.append_assoc]
      | some t =>
        have ht : t ≠ "" := by simpa [truthy] using hc
        simp [if_neg ht, hnet, hstatus, hnpp, hnext, htok', hrec, List.append_assoc]

/-- C10: on a finite all-good path chain ending in a falsy continuation, the
fetch loop terminates after exactly one request per page and returns all
pages' items concatenated in page order; moreover a falsy continuation token
(absent or empty) ends the loop immediately, whatever the remaining fuel. -/
theorem C10_pagination_terminates {Item : Type} (net : String → NetResult Item)
    (endpoint : String) (pages : List (List Item))
    (h : Trading212APIClient.PathChain net (endpoint ++ "?limit=50") pages)
    (fuel : Nat) (hfuel : pages.length ≤ fuel) :
    Trading212APIClient.fetch_paginated net fuel endpoint
        = some (pages.flatten, pages.length) ∧
    (∀ (f : Nat) (acc : List Item) (reqs : Nat),
      Trading212APIClient.fetch_paginated_aux net f none acc reqs = some (acc, reqs) ∧
      Trading212APIClient.fetch_paginated_aux net f (some "") acc reqs = some (acc, reqs)) := by
  constructor
  · have hmain := fetch_paginated_aux_chain net h fuel hfuel [] 0
    simpa [Trading212APIClient.fetch_paginated] using hmain
  · intro f acc reqs
    constructor
    · rw [Trading212APIClient.fetch_paginated_aux.eq_def]
    · rw [Trading212APIClient.fetch_paginated_aux.eq_def]
      simp

/-- Witness for C10 on a concrete two-page chain. -/
theorem C10_witness :
    Trading212APIClient.fetch_paginated c10Net 2 "/api/v0/history/dividends"
      = some ([1, 2, 3], 2) := by
  have h2 : Trading212APIClient.PathChain c10Net
      "/api/v0/history/dividends?cursor=A&limit=50" [[3]] :=
    Trading212APIClient.PathChain.last _ { statusCode := 200, items := [3] }
      (by decide) rfl rfl rfl
  have h1 : Trading212APIClient.PathChain c10Net
      ("/api/v0/history/dividends" ++ "?limit=50") [[1, 2], [3]] :=
    Trading212APIClient.PathChain.step _ "/api/v0/history/dividends?cursor=A&limit=50"
      { statusCode := 200, items := [1, 2],
        nextPagePath := some ("/api/v0/history/dividends?cursor=A&limit=50") } [[3]]
      (by decide) rfl rfl rfl (by decide) h2
  exact (C10_pagination_terminates c10Net "/api/v0/history/dividends" [[1, 2], [3]]
    h1 2 (by decide)).1

/-- C9: on any finite sequence of good pages ending in a transport-level
error or a non-200 status, the fetcher returns normally (no exception
reaches the caller: the source's catch-all except and status check both
break the loop) with exactly the partial list accumulated so far, after one
request per good page plus the failing request. -/
theorem C9_partial_on_failure {Item : Type} (net : String → NetResult Item)
    (endpoint : String) (pages : List (List Item))
    (h : Trading212APIClient.PathChainFail net (endpoint ++ "?limit=50") pages)
    (fuel : Nat) (hfuel : pages.length + 1 ≤ fuel) :
    Trading212APIClient.fetch_paginated net fuel endpoint
      = some (pages.flatten, pages.length + 1) := by
  have hmain := fetch_paginated_aux_chain_fail net h fuel hfuel [] 0
  simpa [Trading212APIClient.fetch_paginated] using hmain

/-- Witness for C9: one good page, then an HTTP 500 page whose items are
not accumulated. -/
theorem C9_witness :
    Trading212APIClient.fetch_paginated c9Net 2 "/api/v0/equity/history/orders"
      = some ([7], 2) := by
  have h2 : Trading212APIClient.PathChainFail c9Net
      "/api/v0/equity/history/orders?cursor=B&limit=50" [] :=
    Trading212APIClient.PathChainFail.failStatus _ { statusCode := 500, items := [9] }
      (by decide) rfl (by decide)
  have h1 : Trading212APIClient.PathChainFail c9Net
      ("/api/v0/equity/history/orders" ++ "?limit=50") [[7]] :=
    Trading212APIClient.PathChainFail.step _ "/api/v0/equity/history/orders?cursor=B&limit=50"
      { statusCode := 200, items := [7],
        nextPagePath := some ("/api/v0/equity/history/orders?cursor=B&limit=50") } []
      (by decide) rfl rfl rfl (by decide) h2
  exact C9_partial_on_failure c9Net "/api/v0/equity/history/orders" [[7]] h1 2 (by decide)

/-- C6 is FALSE as stated: on a two-page cursor-token response sequence
(continuation in the next field, nextPagePath absent) the _fetch_paginated
loop stops after the first page, returning only its items - it never reads
the cursor token - even though the legacy fetch_all_items loop retrieves
both pages of the very same sequence. -/
theorem C6_counterexample :
    LegacyScript.CursorChain c6NetQ none [[1], [2]] ∧
    LegacyScript.fetch_all_items c6NetQ 2 = some [1, 2] ∧
    Trading212APIClient.fetch_paginated c6NetP 5 "/api/v0/history/transactions"
      = some ([1], 1) := by
  refine ⟨?_, rfl, rfl⟩
  exact LegacyScript.CursorChain.step none "tok2"
    { statusCode := 200, items := [1], next := some ("tok2") } [[2]]
    rfl rfl rfl rfl (by decide)
    (LegacyScript.CursorChain.last (some ("tok2")) { statusCode := 200, items := [2] }
      rfl rfl rfl rfl)

/-- C6 (amended): the two continuation dialects are supported by two
different loops.  _fetch_paginated retrieves every page of any
complete-path-override chain, and its result is unchanged when every
response's next field is blanked (it never reads cursor tokens); the legacy
fetch_all_items retrieves every page of any cursor-token chain by re-sending
the token as the cursor query parameter. -/
theorem C6_amended_dialect_split {Item : Type}
    (netP netP' : String → NetResult Item) (netQ : Option String → NetResult Item)
    (endpoint : String) (pagesP pagesQ : List (List Item))
    (hP : Trading212APIClient.PathChain netP (endpoint ++ "?limit=50") pagesP)
    (hQ : LegacyScript.CursorChain netQ none pagesQ)
    (hPP : ∀ p, netP' p = forgetNext (netP p))
    (fuelP fuelQ : Nat) (h1 : pagesP.length ≤ fuelP) (h2 : pagesQ.length ≤ fuelQ) :
    Trading212APIClient.fetch_paginated netP fuelP endpoint
        = some (pagesP.flatten, pagesP.length) ∧
    Trading212APIClient.fetch_paginated netP' fuelP endpoint
        = Trading212APIClient.fetch_paginated netP fuelP endpoint ∧
    LegacyScript.fetch_all_items netQ fuelQ = some pagesQ.flatten := by
  refine ⟨?_, ?_, ?_⟩
  · have hmain := fetch_paginated_aux_chain netP hP fuelP h1 [] 0
    simpa [Trading212APIClient.fetch_paginated] using hmain
  · unfold Trading212APIClient.fetch_paginated
    exact fetch_paginated_aux_ignores_next netP netP' hPP fuelP _ [] 0
  · have hmain := fetch_all_items_aux_chain netQ hQ (Or.inl rfl) fuelQ h2 []
    simpa [LegacyScript.fetch_all_items] using hmain

/-- Witness for the amended C6 on concrete two-page chains of each dialect. -/
theorem C6_amended_witness :
    Trading212APIClient.fetch_paginated c6wNetP 2 "/api/v0/equity/history/orders"
      = some ([4, 5], 2) ∧
    LegacyScript.fetch_all_items c6wNetQ 2 = some [4, 5] := by
  have hP2 : Trading212APIClient.PathChain c6wNetP
      "/api/v0/equity/history/orders?cursor=C&limit=50" [[5]] :=
    Trading212APIClient.PathChain.last _ { statusCode := 200, items := [5] }
      (by decide) rfl rfl rfl
  have hP : Trading212APIClient.PathChain c6wNetP
      ("/api/v0/equity/history/orders" ++ "?limit=50") [[4], [5]] :=
    Trading212APIClient.PathChain.step _ "/api/v0/equity/history/orders?cursor=C&limit=50"
      { statusCode := 200, items := [4],
        nextPagePath := some ("/api/v0/equity/history/orders?cursor=C&limit=50") } [[5]]
      (by decide) rfl rfl rfl (by decide) hP2
  have hQ : LegacyScript.CursorChain c6wNetQ none [[4], [5]] :=
    LegacyScript.CursorChain.step none "tokC"
      { statusCode := 200, items := [4], next := some ("tokC") } [[5]]
      rfl rfl rfl rfl (by decide)
      (LegacyScript.CursorChain.last (some ("tokC")) { statusCode := 200, items := [5] }
        rfl rfl rfl rfl)
  have hall := C6_amended_dialect_split c6wNetP (fun p => forgetNext (c6wNetP p)) c6wNetQ
    "/api/v0/equity/history/orders" [[4], [5]] [[4], [5]] hP hQ (fun p => rfl)
    2 2 (by decide) (by decide)
  exact ⟨hall.1, hall.2.2⟩

/-- C4: signed_amount is non-positive exactly when the type is BUY or
WITHDRAWAL and non-negative for every other type. -/
theorem C4_signed_amount_sign (t : Transaction) :
    ((t.transaction_type = TransactionType.buy
        ∨ t.transaction_type = TransactionType.withdrawal) →
      t.signed_amount ≤ 0) ∧
    (¬(t.transaction_type = TransactionType.buy
        ∨ t.transaction_type = TransactionType.withdrawal) →
      0 ≤ t.signed_amount) := by
  refine ⟨fun h => ?_, fun h => ?_⟩
  · rw [Transaction.signed_amount, if_pos h]
    exact neg_nonpos.mpr (abs_nonneg _)
  · rw [Transaction.signed_amount, if_neg h]
    exact abs_nonneg _

/-- Witness for C4 at a concrete buy and a concrete dividend. -/
theorem C4_witness :
    sampleBuy.signed_amount ≤ 0 ∧ 0 ≤ sampleDividend.signed_amount := by
  constructor
  · exact (C4_signed_amount_sign sampleBuy).1 (Or.inl rfl)
  · exact (C4_signed_amount_sign sampleDividend).2 (by decide)

end T212
